import Mathlib

/-!
Verification of the `not-kahoot` quiz platform: a shallow embedding of the
authoritative TCP game server (`node-client/server.js`) and of the
`/api/joinGame` route of the HTTP bridge (`node-client/client-api.js`),
together with theorems settling the specification claims about them.

JavaScript data structures are embedded as follows:
* a JS `Map` (insertion ordered) becomes an association list with
  replace-in-place update (`mapSet`) and key lookup (`mapGet`);
* a JS `Set` (insertion ordered) becomes a duplicate-free list with
  `setAdd` / `setDelete`;
* JS string falsiness (`undefined`, `null`, `""`) is modelled on
  `Option String` (`jsTruthyS`, `jsOr`, `jsOrD`);
* `Date.now()` and `Math.random()` are environment inputs, passed to the
  handler as explicit `t` (milliseconds) and `rand` (the random draw that
  determines `generatePin`'s output) arguments.
-/

namespace NotKahoot

/-- JS `String.prototype.trim()`: strip leading and trailing whitespace
(executable over the character list, unlike `String.trim`). -/
def jsTrim (s : String) : String :=
  String.mk (((s.data.dropWhile Char.isWhitespace).reverse.dropWhile
    Char.isWhitespace).reverse)

/-- Truthiness of an optional JS string: `undefined` and `""` are falsy. -/
def jsTruthyS : Option String → Bool
  | some s => !s.isEmpty
  | none => false

/-- JS `a || b` on optional strings. -/
def jsOr (a b : Option String) : Option String :=
  if jsTruthyS a then a else b

/-- JS `a || d` where `d` is a string default (e.g. `|| 'Unknown'`). -/
def jsOrD (a : Option String) (d : String) : String :=
  match a with
  | some s => if s.isEmpty then d else s
  | none => d

/-- JS `Number(n) || d` for a non-negative numeric field: `0` is falsy. -/
def numOr (n d : Nat) : Nat :=
  if n = 0 then d else n

/-- Lookup in an association list, modelling JS `Map.get`. -/
def mapGet {κ α : Type} [DecidableEq κ] : List (κ × α) → κ → Option α
  | [], _ => none
  | (k', v) :: rest, k => if k' = k then some v else mapGet rest k

/-- Update-or-append in an association list, modelling JS `Map.set`:
replaces the value in place when the key is present, appends otherwise. -/
def mapSet {κ α : Type} [DecidableEq κ] : List (κ × α) → κ → α → List (κ × α)
  | [], k, v => [(k, v)]
  | (k', v') :: rest, k, v =>
      if k' = k then (k', v) :: rest else (k', v') :: mapSet rest k v

/-- Removal from an association list, modelling JS `Map.delete`. -/
def mapDelete {κ α : Type} [DecidableEq κ] : List (κ × α) → κ → List (κ × α)
  | [], _ => []
  | (k', v) :: rest, k =>
      if k' = k then mapDelete rest k else (k', v) :: mapDelete rest k

/-- Values of an association list in insertion order, modelling JS
`Map.values()`. -/
def mapValues {κ α : Type} (l : List (κ × α)) : List α :=
  l.map Prod.snd

/-- Insertion into a JS `Set`: a no-op when the element is present,
appended at the end otherwise. -/
def setAdd (l : List String) (a : String) : List String :=
  if a ∈ l then l else l ++ [a]

/-- Removal from a JS `Set`. -/
def setDelete : List String → String → List String
  | [], _ => []
  | b :: rest, a => if b = a then setDelete rest a else b :: setDelete rest a

/-- Game lifecycle state: `'lobby' | 'inProgress' | 'ended'`. -/
inductive GState
  | lobby
  | inProgress
  | ended
deriving DecidableEq

/-- Untyped JS value for the `correct` field of an ANSWER message. -/
inductive JVal
  | jbool (b : Bool)
  | jstr (s : String)
  | jnum (n : Int)
  | jundef
deriving DecidableEq

/-- Coercion of the `correct` field (server.js lines 344-345):
`correct === true || correct === 'true' || correct === 1 || correct === '1'`. -/
def coerceCorrect : JVal → Bool
  | .jbool true => true
  | .jstr "true" => true
  | .jnum 1 => true
  | .jstr "1" => true
  | _ => false

/-- Stored question record (server.js lines 268-272). -/
structure Question where
  username : String
  question : String
  answerTrue : Bool
deriving DecidableEq

/-- Game record (server.js lines 9-18 and 173-187). -/
structure Game where
  pin : String
  host : String
  state : GState
  theme : String
  isPublic : Bool
  maxPlayers : Nat
  players : List String
  scores : List (String × Nat)
  questions : List Question
  currentQuestionIndex : Nat
  answeredByIndex : List (Nat × List String)
  createdAt : Nat
  endedAt : Option Nat
deriving DecidableEq

/-- Serialized game shape produced by `serializeGame` (server.js 31-44). -/
structure SGame where
  pin : String
  host : String
  state : GState
  theme : String
  isPublic : Bool
  maxPlayers : Nat
  players : List String
  scores : List (String × Nat)
  questions : List Question
  currentQuestionIndex : Nat
deriving DecidableEq

/-- The `serializeGame` function (server.js 31-44). All optional fallbacks
(`?? ''`, `?? 20`, `|| []`, `?? 0`) are identities here because the embedded
`Game` record is total. -/
def serializeGame (g : Game) : SGame :=
  { pin := g.pin
    host := g.host
    state := g.state
    theme := g.theme
    isPublic := g.isPublic
    maxPlayers := g.maxPlayers
    players := g.players
    scores := g.scores
    questions := g.questions
    currentQuestionIndex := g.currentQuestionIndex }

/-- Outbound frame payloads (server → client). -/
inductive OutMsg
  | error (message : String)
  | registerOk (username : Option String)
  | gamesList (games : List SGame)
  | gameCreated (game : SGame)
  | joinedGame (game : SGame)
  | playerJoined (pin : String) (game : SGame)
  | playerLeft (pin : String) (game : SGame)
  | questionSubmitted (pin : String) (username : String) (question : String)
      (answerTrue : Bool)
  | gameStarted (pin : String) (game : SGame)
  | scoreUpdate (pin : String) (game : SGame) (answeredBy : String)
      (correct : Bool) (duplicate : Bool)
  | nextQuestion (pin : String) (game : SGame)
  | gameEnded (pin : String) (game : SGame)
  | chat (pin : String) (sender : String) (message : String)
deriving DecidableEq

/-- An observable output of a handler: a reply on the sender's socket
(`send(client.socket, …)`) or a call to `broadcastToGame(pin, …)`. -/
inductive Output
  | reply (msg : OutMsg)
  | broadcast (pin : String) (msg : OutMsg)
deriving DecidableEq

/-- Per-connection client state (server.js line 94). -/
structure Client where
  username : Option String
  currentPin : Option String
deriving DecidableEq

/-- The game registry: JS `Map` from PIN to game (server.js line 19). -/
abbrev Registry := List (String × Game)

/-- Result of a handler: updated client, updated registry, outputs in order. -/
abbrev HRes := Client × Registry × List Output

/-- Inbound messages (client → server), with `Option` fields where the
handler checks for absent/falsy values. -/
inductive Msg
  | register (username : Option String)
  | listGames
  | createGame (username theme : Option String) (isPublic : Option Bool)
      (maxPlayers : Option Nat)
  | joinGame (pin : String) (username : Option String)
  | exitGame (pin : Option String)
  | submitQuestion (pin question : String) (answerTrue : Bool)
      (username : Option String)
  | startGame (pin username : Option String)
  | answer (pin : String) (correct : JVal) (username : Option String)
  | nextQuestion (pin : String) (username : Option String)
  | endGame (pin : String) (username : Option String)
  | chat (pin message : String) (username : Option String)
  | other (tyName : String)
deriving DecidableEq

/-- Retention window for ended games (server.js line 21): 2 minutes. -/
def ENDED_TTL_MS : Nat := 2 * 60 * 1000

/-- Numeric value of a generated PIN: `Math.floor(100000 + r * 900000)` for a
random draw, modelled by a natural draw `rand` reduced into `[0, 900000)`. -/
def generatePinNum (rand : Nat) : Nat :=
  100000 + rand % 900000

/-- The `generatePin` function (server.js 27-29): the decimal string of a
number in `[100000, 999999]`; no registry lookup, no retry. -/
def generatePin (rand : Nat) : String :=
  toString (generatePinNum rand)

/-- Deletion predicate of `cleanupEndedGames` (server.js 75-85): an ended
game whose `endedAt` is truthy and older than the TTL. -/
def sweepDelete (g : Game) (t : Nat) : Bool :=
  decide (g.state = GState.ended ∧
    (g.endedAt.getD 0 ≠ 0 ∧ ENDED_TTL_MS < t - g.endedAt.getD 0))

/-- The `cleanupEndedGames` function (server.js 75-85). -/
def cleanupEndedGames (reg : Registry) (t : Nat) : Registry :=
  reg.filter fun e => !sweepDelete e.2 t

/-- The `endGame` helper (server.js 87-91): sets `state`/`endedAt` and
broadcasts GAME_ENDED, unconditionally. -/
def endGameRun (pin : String) (g : Game) (t : Nat) : Game × Output :=
  let g' := { g with state := GState.ended, endedAt := some t }
  (g', Output.broadcast pin (OutMsg.gameEnded pin (serializeGame g')))

/-- REGISTER handler (server.js 137-143). -/
def handleRegister (c : Client) (reg : Registry) (uname : Option String) : HRes :=
  ({ c with username := uname }, reg, [Output.reply (OutMsg.registerOk uname)])

/-- LIST_GAMES handler (server.js 145-155): sweeps ended games, then lists
every game whose state is `lobby` — note the filter tests only the state,
not `isPublic`, despite the comment on line 148. -/
def handleListGames (c : Client) (reg : Registry) (t : Nat) : HRes :=
  let reg1 := cleanupEndedGames reg t
  let list := ((mapValues reg1).filter fun g => decide (g.state = GState.lobby)).map
    serializeGame
  (c, reg1, [Output.reply (OutMsg.gamesList list)])

/-- CREATE_GAME handler (server.js 157-195). `rand` is the `Math.random()`
draw feeding `generatePin`; `t` is `Date.now()`. -/
def handleCreateGame (c : Client) (reg : Registry) (t rand : Nat)
    (uname theme : Option String) (isPub : Option Bool) (maxP : Option Nat) : HRes :=
  if !jsTruthyS c.username then
    (c, reg, [Output.reply (OutMsg.error "Not registered")])
  else
    let hostUser := (jsOr uname c.username).getD ""
    let pin := generatePin rand
    let game : Game :=
      { pin := pin
        host := hostUser
        state := GState.lobby
        theme := theme.getD ""
        isPublic := isPub.getD true
        maxPlayers := numOr (maxP.getD 20) 20
        players := [hostUser]
        scores := [(hostUser, 0)]
        questions := []
        currentQuestionIndex := 0
        answeredByIndex := []
        createdAt := t
        endedAt := none }
    ({ c with currentPin := some pin }, mapSet reg pin game,
      [Output.reply (OutMsg.gameCreated (serializeGame game))])

/-- JOIN_GAME handler (server.js 197-227). -/
def handleJoinGame (c : Client) (reg : Registry) (pin : String)
    (uname : Option String) : HRes :=
  match mapGet reg pin with
  | none => (c, reg, [Output.reply (OutMsg.error "Game not found")])
  | some g =>
    if g.state ≠ GState.lobby then
      (c, reg,
        [Output.reply (OutMsg.error "Game is not joinable (already started/ended)")])
    else
      match jsOr uname c.username with
      | none => (c, reg, [Output.reply (OutMsg.error "Username is required")])
      | some u =>
        if u.isEmpty then
          (c, reg, [Output.reply (OutMsg.error "Username is required")])
        else if g.maxPlayers ≤ g.players.length then
          (c, reg, [Output.reply (OutMsg.error "Game is full")])
        else
          let g' := { g with
            players := setAdd g.players u
            scores := if (mapGet g.scores u).isSome then g.scores
                      else mapSet g.scores u 0 }
          let gd := serializeGame g'
          ({ c with currentPin := some pin }, mapSet reg pin g',
            [Output.reply (OutMsg.joinedGame gd),
             Output.broadcast pin (OutMsg.playerJoined pin gd)])

/-- EXIT_GAME handler (server.js 229-253): removes the user from `players`
and from `scores` unconditionally, reassigns the host if needed, broadcasts
PLAYER_LEFT, and deletes the game when no player remains. -/
def handleExitGame (c : Client) (reg : Registry) (mpin : Option String) : HRes :=
  match jsOr mpin c.currentPin with
  | none => (c, reg, [])
  | some pin =>
    if pin.isEmpty then (c, reg, [])
    else
      match c.username with
      | none => (c, reg, [])
      | some u =>
        if u.isEmpty then (c, reg, [])
        else
          match mapGet reg pin with
          | none => (c, reg, [])
          | some g =>
            let g1 := { g with
              players := setDelete g.players u
              scores := mapDelete g.scores u }
            let c' := { c with currentPin := none }
            let g2 := if g1.host = u ∧ 0 < g1.players.length then
                { g1 with host := g1.players.headD "" }
              else g1
            let outs := [Output.broadcast pin (OutMsg.playerLeft pin (serializeGame g2))]
            if g2.players.length = 0 then (c', mapDelete reg pin, outs)
            else (c', mapSet reg pin g2, outs)

/-- SUBMIT_QUESTION handler (server.js 255-282). -/
def handleSubmitQuestion (c : Client) (reg : Registry) (pin question : String)
    (answerTrue : Bool) (uname : Option String) : HRes :=
  match mapGet reg pin with
  | none => (c, reg, [Output.reply (OutMsg.error "Game not found")])
  | some g =>
    if g.state ≠ GState.lobby then
      (c, reg, [Output.reply (OutMsg.error "Cannot submit questions after game starts")])
    else
      let sender := jsOrD (jsOr uname c.username) "Unknown"
      let g' := { g with questions := g.questions ++ [⟨sender, question, answerTrue⟩] }
      (c, mapSet reg pin g',
        [Output.broadcast pin (OutMsg.questionSubmitted pin sender question answerTrue)])

/-- START_GAME handler (server.js 284-310): checks the host and that at
least one question exists, then (re)starts — there is no check that the
game is in the `lobby` state; `endedAt` is reset to `null`. -/
def handleStartGame (c : Client) (reg : Registry) (mpin uname : Option String) : HRes :=
  match jsOr mpin c.currentPin with
  | none => (c, reg, [])
  | some pin =>
    if pin.isEmpty then (c, reg, [])
    else
      match mapGet reg pin with
      | none => (c, reg, [Output.reply (OutMsg.error "Game not found")])
      | some g =>
        let actor := jsOrD (jsOr uname c.username) "Unknown"
        if g.host ≠ actor then
          (c, reg, [Output.reply (OutMsg.error "Only host can start")])
        else if g.questions.length = 0 then
          (c, reg, [Output.reply (OutMsg.error "Add at least 1 question before starting")])
        else
          let g' := { g with
            state := GState.inProgress
            currentQuestionIndex := 0
            answeredByIndex := []
            endedAt := none }
          (c, mapSet reg pin g',
            [Output.broadcast pin (OutMsg.gameStarted pin (serializeGame g'))])

/-- Lines 322-325 of the ANSWER handler: an unknown user is silently added
to `players` (and given a zero score) with no capacity check. -/
def ensurePlayer (g : Game) (u : String) : Game :=
  if u ∈ g.players then g
  else { g with
    players := setAdd g.players u
    scores := if (mapGet g.scores u).isSome then g.scores else mapSet g.scores u 0 }

/-- Line 328 of the ANSWER handler: ensure `answeredByIndex` has a set for
the index. -/
def ensureAnswerSet (g : Game) (idx : Nat) : Game :=
  if (mapGet g.answeredByIndex idx).isSome then g
  else { g with answeredByIndex := mapSet g.answeredByIndex idx [] }

/-- Lines 349-352 of the ANSWER handler: ensure a score entry exists, then
add 100 when the answer was correct. -/
def scoreAnswer (g : Game) (u : String) (isCorrect : Bool) : Game :=
  let scores1 := if (mapGet g.scores u).isSome then g.scores else mapSet g.scores u 0
  let scores2 := if isCorrect then mapSet scores1 u ((mapGet scores1 u).getD 0 + 100)
    else scores1
  { g with scores := scores2 }

/-- ANSWER handler (server.js 312-363). Silent no-op when the game is not
`inProgress` or the user does not resolve; duplicate answers for the current
index broadcast SCORE_UPDATE with `duplicate: true` and change nothing else. -/
def handleAnswer (c : Client) (reg : Registry) (pin : String) (correct : JVal)
    (uname : Option String) : HRes :=
  match mapGet reg pin with
  | none => (c, reg, [Output.reply (OutMsg.error "Game not found")])
  | some g =>
    if g.state ≠ GState.inProgress then (c, reg, [])
    else
      match jsOr uname c.username with
      | none => (c, reg, [])
      | some u =>
        if u.isEmpty then (c, reg, [])
        else
          let g1 := ensurePlayer g u
          let idx := g1.currentQuestionIndex
          let g2 := ensureAnswerSet g1 idx
          let answeredSet := (mapGet g2.answeredByIndex idx).getD []
          if u ∈ answeredSet then
            (c, mapSet reg pin g2,
              [Output.broadcast pin
                (OutMsg.scoreUpdate pin (serializeGame g2) u false true)])
          else
            let isCorrect := coerceCorrect correct
            let g3 := { g2 with
              answeredByIndex := mapSet g2.answeredByIndex idx (setAdd answeredSet u) }
            let g4 := scoreAnswer g3 u isCorrect
            (c, mapSet reg pin g4,
              [Output.broadcast pin
                (OutMsg.scoreUpdate pin (serializeGame g4) u isCorrect false)])

/-- The game produced by the scoring path of the ANSWER handler (server.js
322-352) for a user not yet recorded for the current index: the user is
ensured as a player, recorded in the answered set of the current index, and
scored (+100 when correct). -/
def answerResultGame (g : Game) (u : String) (isCorrect : Bool) : Game :=
  let g1 := ensurePlayer g u
  let idx := g1.currentQuestionIndex
  let g2 := ensureAnswerSet g1 idx
  let answeredSet := (mapGet g2.answeredByIndex idx).getD []
  let g3 := { g2 with answeredByIndex := mapSet g2.answeredByIndex idx (setAdd answeredSet u) }
  scoreAnswer g3 u isCorrect

/-- NEXT_QUESTION handler (server.js 365-392). -/
def handleNextQuestion (c : Client) (reg : Registry) (t : Nat) (pin : String)
    (uname : Option String) : HRes :=
  match mapGet reg pin with
  | none => (c, reg, [Output.reply (OutMsg.error "Game not found")])
  | some g =>
    if g.state ≠ GState.inProgress then
      (c, reg, [Output.reply (OutMsg.error "Game is not in progress")])
    else
      let actor := jsOrD (jsOr uname c.username) "Unknown"
      if g.host ≠ actor then
        (c, reg, [Output.reply (OutMsg.error "Only host can advance questions")])
      else
        let total := g.questions.length
        let nextIdx := g.currentQuestionIndex + 1
        let g1 := { g with currentQuestionIndex := nextIdx }
        if 0 < total ∧ total ≤ nextIdx then
          let rEnd := endGameRun pin g1 t
          (c, mapSet reg pin rEnd.1, [rEnd.2])
        else
          (c, mapSet reg pin g1,
            [Output.broadcast pin (OutMsg.nextQuestion pin (serializeGame g1))])

/-- END_GAME handler (server.js 394-407): after the host check it calls
`endGame` unconditionally — also on an already-ended game. -/
def handleEndGame (c : Client) (reg : Registry) (t : Nat) (pin : String)
    (uname : Option String) : HRes :=
  match mapGet reg pin with
  | none => (c, reg, [Output.reply (OutMsg.error "Game not found")])
  | some g =>
    let actor := jsOrD (jsOr uname c.username) "Unknown"
    if g.host ≠ actor then
      (c, reg, [Output.reply (OutMsg.error "Only host can end the game")])
    else
      let rEnd := endGameRun pin g t
      (c, mapSet reg pin rEnd.1, [rEnd.2])

/-- CHAT handler (server.js 409-417). -/
def handleChat (c : Client) (reg : Registry) (pin message : String)
    (uname : Option String) : HRes :=
  match mapGet reg pin with
  | none => (c, reg, [Output.reply (OutMsg.error "Game not found")])
  | some _ =>
    let sender := jsOrD (jsOr uname c.username) "Unknown"
    (c, reg, [Output.broadcast pin (OutMsg.chat pin sender message)])

/-- The `handleMessage` dispatcher (server.js 135-422). -/
def handleMessage (c : Client) (reg : Registry) (t rand : Nat) (m : Msg) : HRes :=
  match m with
  | .register uname => handleRegister c reg uname
  | .listGames => handleListGames c reg t
  | .createGame uname theme isPub maxP => handleCreateGame c reg t rand uname theme isPub maxP
  | .joinGame pin uname => handleJoinGame c reg pin uname
  | .exitGame mpin => handleExitGame c reg mpin
  | .submitQuestion pin q aT uname => handleSubmitQuestion c reg pin q aT uname
  | .startGame mpin uname => handleStartGame c reg mpin uname
  | .answer pin correct uname => handleAnswer c reg pin correct uname
  | .nextQuestion pin uname => handleNextQuestion c reg t pin uname
  | .endGame pin uname => handleEndGame c reg t pin uname
  | .chat pin message uname => handleChat c reg pin message uname
  | .other tyName => (c, reg, [Output.reply (OutMsg.error ("Unknown type: " ++ tyName))])

/-! Embedding of the HTTP bridge's `/api/joinGame` route
(client-api.js 354-365) with its username resolution (client-api.js 56-82),
session lookup (`requireClient`, client-api.js 258-270) and the
`GameClient.joinGame` / `_send` methods (GameClient.js 142-149, 180-183). -/

/-- Bridge-side per-username TCP session (GameClient.js): its default
username and whether the socket is connected (`_send` throws otherwise). -/
structure GameClientS where
  username : String
  connected : Bool
deriving DecidableEq

/-- A frame the bridge writes onto a TCP session. -/
inductive TcpSend
  | joinGameMsg (pin : String) (username : String)
deriving DecidableEq

/-- The `GameClient.joinGame` method (GameClient.js 180-183):
`user = username || this.username`, then `_send` which throws
`GameClient is not connected` when the socket is down. -/
def gcJoinGame (gc : GameClientS) (pin : String) (uname : Option String) :
    Except String TcpSend :=
  if !gc.connected then Except.error "GameClient is not connected"
  else Except.ok (TcpSend.joinGameMsg pin (jsOrD uname gc.username))

/-- Inputs of a bridge request that `resolveUsername` and the route read:
body `username`, `X-Username` header, the username a valid bearer token
resolves to in the user store, and body `gameId`. -/
structure BridgeReq where
  bodyUsername : Option String
  headerUsername : Option String
  tokenUsername : Option String
  bodyGameId : Option String
deriving DecidableEq

/-- The `resolveUsername` helper (client-api.js 56-82): trimmed body
username, else trimmed `X-Username` header, else the token's user. -/
def resolveUsername (r : BridgeReq) : Option String :=
  let fromBody : Option String :=
    match r.bodyUsername with
    | some s => if !s.isEmpty && !(jsTrim s).isEmpty then some (jsTrim s) else none
    | none => none
  match fromBody with
  | some u => some u
  | none =>
    let fromHeader : Option String :=
      match r.headerUsername with
      | some s => if !(jsTrim s).isEmpty then some (jsTrim s) else none
      | none => none
    match fromHeader with
    | some u => some u
    | none =>
      match r.tokenUsername with
      | some s => if !s.isEmpty then some s else none
      | none => none

/-- Shape of the HTTP response the route produces. -/
structure HttpResp where
  status : Nat
  okField : Option Bool
  gameField : Option SGame
  errorField : Option String
deriving DecidableEq

/-- The `POST /api/joinGame` route (client-api.js 354-365): resolve the
username, require a session, require `gameId`, forward JOIN_GAME on the TCP
session and reply `200 {ok:true}` at once. An `Except.error` models the
exception `_send` throws on a disconnected session. -/
def joinGameRoute (clients : List (String × GameClientS)) (r : BridgeReq) :
    Except String (HttpResp × List TcpSend) :=
  match resolveUsername r with
  | none => Except.ok
      ({ status := 400, okField := some false, gameField := none,
         errorField := some "username required (body, x-username, or auth token)" }, [])
  | some u =>
    match mapGet clients u with
    | none => Except.ok
        ({ status := 400, okField := some false, gameField := none,
           errorField := some "Not connected (call /api/connect first)" }, [])
    | some gc =>
      match r.bodyGameId with
      | none => Except.ok
          ({ status := 400, okField := some false, gameField := none,
             errorField := some "gameId is required" }, [])
      | some gid =>
        if gid.isEmpty then Except.ok
            ({ status := 400, okField := some false, gameField := none,
               errorField := some "gameId is required" }, [])
        else
          match gcJoinGame gc gid (some u) with
          | Except.error e => Except.error e
          | Except.ok s => Except.ok
              ({ status := 200, okField := some true, gameField := none,
                 errorField := none }, [s])

/-! Invariant predicates from the specification. -/

/-- Every username recorded in any `answeredByIndex` entry belongs to
`players`. -/
def AnsweredSubPlayers (g : Game) : Prop :=
  ∀ e ∈ g.answeredByIndex, ∀ u ∈ e.2, u ∈ g.players

instance : DecidablePred AnsweredSubPlayers := fun g => by
  unfold AnsweredSubPlayers
  infer_instance

/-! Concrete inputs used by counterexamples and witnesses. -/

/-- A registered connection for the user alice. -/
def cAlice : Client := ⟨some "alice", none⟩

/-- A sample question authored by alice. -/
def qTest : Question := ⟨"alice", "2+2=4", true⟩

/-- An ended game with one recorded answer and `endedAt` set. -/
def gEnded : Game :=
  ⟨"111111", "alice", GState.ended, "", true, 20, ["alice", "bob"],
    [("alice", 0), ("bob", 100)], [qTest], 1, [(0, ["bob"])], 0, some 5⟩

/-- An in-progress game hosted by alice with one question. -/
def gInProg2 : Game :=
  ⟨"222222", "alice", GState.inProgress, "", true, 20, ["alice"],
    [("alice", 0)], [qTest], 0, [(0, ["alice"])], 0, none⟩

/-- An in-progress game in which bob has answered the current question. -/
def gInProg7 : Game :=
  ⟨"333333", "alice", GState.inProgress, "", true, 20, ["alice", "bob"],
    [("alice", 0), ("bob", 100)], [qTest], 0, [(0, ["bob"])], 0, none⟩

/-- A private (isPublic = false) game still in the lobby. -/
def gPriv : Game :=
  ⟨"444444", "carol", GState.lobby, "Secret", false, 20, ["carol"],
    [("carol", 0)], [], 0, [], 0, none⟩

/-- A lobby game already registered under PIN 123456. -/
def gOld : Game :=
  ⟨"123456", "alice", GState.lobby, "", true, 20, ["alice"],
    [("alice", 0)], [], 0, [], 0, none⟩

/-- A lobby game with room for one more player. -/
def gRoom : Game :=
  ⟨"555555", "alice", GState.lobby, "", true, 2, ["alice"],
    [("alice", 0)], [], 0, [], 0, none⟩

/-- An in-progress game in which bob has not yet answered the current
question. -/
def gW1 : Game :=
  ⟨"666666", "alice", GState.inProgress, "", true, 20, ["alice", "bob"],
    [("alice", 0), ("bob", 0)], [qTest], 0, [], 0, none⟩

/-- An in-progress game satisfying the answered-subset-players invariant. -/
def gW6 : Game :=
  ⟨"777777", "alice", GState.inProgress, "", true, 20, ["alice"],
    [("alice", 0)], [qTest], 0, [(0, ["alice"])], 0, none⟩

/-- A connected bridge session for alice. -/
def gcAlice : GameClientS := ⟨"alice", true⟩

/-! Message traces (each message handled with explicit wall-clock and random
inputs), used by trace counterexamples. -/

/-- Trace A, step 1: alice creates a game (the draw 0 yields PIN 100000). -/
def trA1 : HRes := handleMessage cAlice [] 0 0 (Msg.createGame (some "alice") none none none)

/-- Trace A, step 2: alice submits a question. -/
def trA2 : HRes :=
  handleMessage trA1.1 trA1.2.1 1 0 (Msg.submitQuestion "100000" "2+2=4" true (some "alice"))

/-- Trace A, step 3: alice starts the game. -/
def trA3 : HRes :=
  handleMessage trA2.1 trA2.2.1 2 0 (Msg.startGame (some "100000") (some "alice"))

/-- Trace A, step 4: bob answers the current question (index 0) correctly. -/
def trA4 : HRes :=
  handleMessage trA3.1 trA3.2.1 3 0 (Msg.answer "100000" (JVal.jbool true) (some "bob"))

/-- Trace A, step 5: alice sends START_GAME again on the running game. -/
def trA5 : HRes :=
  handleMessage trA4.1 trA4.2.1 4 0 (Msg.startGame (some "100000") (some "alice"))

/-- Trace A, step 6: bob answers question index 0 again. -/
def trA6 : HRes :=
  handleMessage trA5.1 trA5.2.1 5 0 (Msg.answer "100000" (JVal.jbool true) (some "bob"))

/-- Trace B, step 1: alice creates a game capped at maxPlayers = 1. -/
def trB1 : HRes :=
  handleMessage cAlice [] 0 0 (Msg.createGame (some "alice") none none (some 1))

/-- Trace B, step 2: alice submits a question. -/
def trB2 : HRes :=
  handleMessage trB1.1 trB1.2.1 1 0 (Msg.submitQuestion "100000" "2+2=4" true (some "alice"))

/-- Trace B, step 3: alice starts the game, which is full (1 of 1). -/
def trB3 : HRes :=
  handleMessage trB2.1 trB2.2.1 2 0 (Msg.startGame (some "100000") (some "alice"))

/-- Trace B, step 4: bob, not a player, answers; the handler adds him. -/
def trB4 : HRes :=
  handleMessage trB3.1 trB3.2.1 3 0 (Msg.answer "100000" (JVal.jbool true) (some "bob"))

/-- Trace C, step 1: alice creates a game. -/
def trC1 : HRes := handleMessage cAlice [] 0 0 (Msg.createGame (some "alice") none none none)

/-- Trace C, step 2: bob joins the lobby. -/
def trC2 : HRes :=
  handleMessage trC1.1 trC1.2.1 1 0 (Msg.joinGame "100000" (some "bob"))

/-- Trace C, step 3: alice submits a question. -/
def trC3 : HRes :=
  handleMessage trC2.1 trC2.2.1 2 0 (Msg.submitQuestion "100000" "2+2=4" true (some "alice"))

/-- Trace C, step 4: alice starts the game. -/
def trC4 : HRes :=
  handleMessage trC3.1 trC3.2.1 3 0 (Msg.startGame (some "100000") (some "alice"))

/-- Trace C, step 5: bob answers the current question. -/
def trC5 : HRes :=
  handleMessage trC4.1 trC4.2.1 4 0 (Msg.answer "100000" (JVal.jbool true) (some "bob"))

/-- Trace C, step 6: bob exits the running game (on bob's connection). -/
def trC6 : HRes :=
  handleMessage ⟨some "bob", some "100000"⟩ trC5.2.1 5 0 (Msg.exitGame (some "100000"))

/-! Basic lemmas about the embedded JS `Map` and `Set` operations. -/

theorem mapGet_mapSet {κ α : Type} [DecidableEq κ] (l : List (κ × α)) (k k' : κ) (v : α) :
    mapGet (mapSet l k v) k' = if k' = k then some v else mapGet l k' := by
  induction l with
  | nil =>
    by_cases h : k' = k
    · subst h; simp [mapSet, mapGet]
    · simp [mapSet, mapGet, h, Ne.symm h]
  | cons hd tl ih =>
    obtain ⟨k₀, v₀⟩ := hd
    by_cases h0 : k₀ = k
    · subst h0
      by_cases h1 : k' = k₀
      · subst h1; simp [mapSet, mapGet]
      · simp [mapSet, mapGet, h1, Ne.symm h1]
    · by_cases h1 : k₀ = k'
      · subst h1
        simp [mapSet, mapGet, h0]
      · simp [mapSet, mapGet, h0, h1, ih]

theorem mapSet_eq_self {κ α : Type} [DecidableEq κ] (l : List (κ × α)) (k : κ) (v : α)
    (h : mapGet l k = some v) : mapSet l k v = l := by
  induction l with
  | nil => simp [mapGet] at h
  | cons hd tl ih =>
    obtain ⟨k₀, v₀⟩ := hd
    by_cases h0 : k₀ = k
    · subst h0
      simp [mapGet] at h
      simp [mapSet, h]
    · simp [mapGet, h0] at h
      simp [mapSet, h0, ih h]

theorem mapGet_mapDelete {κ α : Type} [DecidableEq κ] (l : List (κ × α)) (k k' : κ) :
    mapGet (mapDelete l k) k' = if k' = k then none else mapGet l k' := by
  induction l with
  | nil =>
    by_cases h : k' = k <;> simp [mapDelete, mapGet, h]
  | cons hd tl ih =>
    obtain ⟨k₀, v₀⟩ := hd
    by_cases h0 : k₀ = k
    · subst h0
      by_cases h1 : k' = k₀
      · subst h1; simp [mapDelete, ih]
      · simp [mapDelete, mapGet, h1, Ne.symm h1, ih]
    · by_cases h1 : k₀ = k'
      · subst h1
        simp [mapDelete, mapGet, h0]
      · simp [mapDelete, mapGet, h0, h1, ih]

theorem mem_mapSet_entries {κ α : Type} [DecidableEq κ] (l : List (κ × α)) (k : κ) (v : α)
    (e : κ × α) (h : e ∈ mapSet l k v) : (e.1 = k ∧ e.2 = v) ∨ e ∈ l := by
  induction l with
  | nil =>
    simp [mapSet] at h
    subst h; exact Or.inl ⟨rfl, rfl⟩
  | cons hd tl ih =>
    obtain ⟨k₀, v₀⟩ := hd
    by_cases h0 : k₀ = k
    · subst h0
      simp [mapSet] at h
      rcases h with h | h
      · subst h; exact Or.inl ⟨rfl, rfl⟩
      · exact Or.inr (List.mem_cons_of_mem _ h)
    · simp [mapSet, h0] at h
      rcases h with h | h
      · subst h; exact Or.inr (List.mem_cons_self _ _)
      · rcases ih h with h' | h'
        · exact Or.inl h'
        · exact Or.inr (List.mem_cons_of_mem _ h')

theorem mapGet_mem {κ α : Type} [DecidableEq κ] (l : List (κ × α)) (k : κ) (v : α)
    (h : mapGet l k = some v) : (k, v) ∈ l := by
  induction l with
  | nil => simp [mapGet] at h
  | cons hd tl ih =>
    obtain ⟨k₀, v₀⟩ := hd
    by_cases h0 : k₀ = k
    · subst h0
      simp [mapGet] at h
      subst h; exact List.mem_cons_self _ _
    · simp [mapGet, h0] at h
      exact List.mem_cons_of_mem _ (ih h)

theorem mem_setAdd (l : List String) (a b : String) :
    a ∈ setAdd l b ↔ a ∈ l ∨ a = b := by
  by_cases h : b ∈ l
  · simp only [setAdd, if_pos h]
    constructor
    · exact Or.inl
    · rintro (h' | rfl)
      · exact h'
      · exact h
  · simp [setAdd, if_neg h]

theorem mem_setAdd_self (l : List String) (a : String) : a ∈ setAdd l a :=
  (mem_setAdd l a a).mpr (Or.inr rfl)

theorem mem_setAdd_of_mem (l : List String) (a b : String) (h : a ∈ l) :
    a ∈ setAdd l b :=
  (mem_setAdd l a b).mpr (Or.inl h)

theorem setAdd_length (l : List String) (a : String) :
    (setAdd l a).length ≤ l.length + 1 := by
  by_cases h : a ∈ l
  · simp [setAdd, h]
  · simp [setAdd, h]

theorem setAdd_length_of_lt (l : List String) (a : String) (n : Nat)
    (h : l.length < n) : (setAdd l a).length ≤ n :=
  le_trans (setAdd_length l a) h

theorem not_mem_setDelete_self (l : List String) (a : String) :
    a ∉ setDelete l a := by
  induction l with
  | nil => simp [setDelete]
  | cons b rest ih =>
    by_cases h : b = a
    · simpa [setDelete, h] using ih
    · simp [setDelete, h, ih]
      intro h'; exact absurd h'.symm h

/-! Lemmas about the ANSWER handler's building blocks. -/

@[simp]
theorem ensurePlayer_state (g : Game) (u : String) : (ensurePlayer g u).state = g.state := by
  unfold ensurePlayer; split <;> rfl

@[simp]
theorem ensurePlayer_currentQuestionIndex (g : Game) (u : String) :
    (ensurePlayer g u).currentQuestionIndex = g.currentQuestionIndex := by
  unfold ensurePlayer; split <;> rfl

@[simp]
theorem ensurePlayer_answeredByIndex (g : Game) (u : String) :
    (ensurePlayer g u).answeredByIndex = g.answeredByIndex := by
  unfold ensurePlayer; split <;> rfl

theorem ensurePlayer_mem_players (g : Game) (u : String) : u ∈ (ensurePlayer g u).players := by
  unfold ensurePlayer
  split
  · assumption
  · exact mem_setAdd_self _ _

theorem ensurePlayer_players_sub (g : Game) (u a : String) (h : a ∈ g.players) :
    a ∈ (ensurePlayer g u).players := by
  unfold ensurePlayer
  split
  · exact h
  · exact mem_setAdd_of_mem _ _ _ h

theorem ensurePlayer_eq_of_mem (g : Game) (u : String) (h : u ∈ g.players) :
    ensurePlayer g u = g := by
  unfold ensurePlayer
  exact if_pos h

theorem ensurePlayer_scores_getD (g : Game) (u : String) :
    (mapGet (ensurePlayer g u).scores u).getD 0 = (mapGet g.scores u).getD 0 := by
  unfold ensurePlayer
  split
  · rfl
  · simp only
    rcases h : mapGet g.scores u with _ | v
    · simp [h, mapGet_mapSet]
    · simp [h]

@[simp]
theorem ensureAnswerSet_state (g : Game) (idx : Nat) :
    (ensureAnswerSet g idx).state = g.state := by
  unfold ensureAnswerSet; split <;> rfl

@[simp]
theorem ensureAnswerSet_players (g : Game) (idx : Nat) :
    (ensureAnswerSet g idx).players = g.players := by
  unfold ensureAnswerSet; split <;> rfl

@[simp]
theorem ensureAnswerSet_scores (g : Game) (idx : Nat) :
    (ensureAnswerSet g idx).scores = g.scores := by
  unfold ensureAnswerSet; split <;> rfl

@[simp]
theorem ensureAnswerSet_currentQuestionIndex (g : Game) (idx : Nat) :
    (ensureAnswerSet g idx).currentQuestionIndex = g.currentQuestionIndex := by
  unfold ensureAnswerSet; split <;> rfl

theorem ensureAnswerSet_getD_self (g : Game) (idx : Nat) :
    (mapGet (ensureAnswerSet g idx).answeredByIndex idx).getD [] =
      (mapGet g.answeredByIndex idx).getD [] := by
  unfold ensureAnswerSet
  split
  · rfl
  · next h =>
    rcases hm : mapGet g.answeredByIndex idx with _ | s
    · simp [hm, mapGet_mapSet]
    · simp [hm] at h

theorem ensureAnswerSet_eq_of_isSome (g : Game) (idx : Nat)
    (h : (mapGet g.answeredByIndex idx).isSome) : ensureAnswerSet g idx = g := by
  unfold ensureAnswerSet
  exact if_pos h

@[simp]
theorem scoreAnswer_state (g : Game) (u : String) (b : Bool) :
    (scoreAnswer g u b).state = g.state := rfl

@[simp]
theorem scoreAnswer_players (g : Game) (u : String) (b : Bool) :
    (scoreAnswer g u b).players = g.players := rfl

@[simp]
theorem scoreAnswer_currentQuestionIndex (g : Game) (u : String) (b : Bool) :
    (scoreAnswer g u b).currentQuestionIndex = g.currentQuestionIndex := rfl

@[simp]
theorem scoreAnswer_answeredByIndex (g : Game) (u : String) (b : Bool) :
    (scoreAnswer g u b).answeredByIndex = g.answeredByIndex := rfl

theorem scoreAnswer_scores_get (g : Game) (u : String) (b : Bool) :
    mapGet (scoreAnswer g u b).scores u =
      some ((mapGet g.scores u).getD 0 + if b then 100 else 0) := by
  unfold scoreAnswer
  simp only
  rcases h : mapGet g.scores u with _ | v
  · cases b <;> simp [h, mapGet_mapSet]
  · cases b <;> simp [h, mapGet_mapSet]

/-! Claim theorems. -/

/-- C10: for an ANSWER naming an existing game whose state is not
`inProgress`, the handler is a silent no-op — the client, the registry and
every game are unchanged, and no reply or broadcast is produced. -/
theorem answer_silent_noop_when_not_inProgress
    (c : Client) (reg : Registry) (t rand : Nat) (pin : String) (correct : JVal)
    (uname : Option String) (g : Game)
    (hg : mapGet reg pin = some g) (hs : g.state ≠ GState.inProgress) :
    handleMessage c reg t rand (Msg.answer pin correct uname) = (c, reg, []) := by
  simp [handleMessage, handleAnswer, hg, hs]

/-- Witness for C10: ANSWER on the concrete ended game is a silent no-op. -/
theorem answer_silent_noop_when_not_inProgress_witness :
    handleMessage ⟨some "carol", none⟩ [("111111", gEnded)] 9 9
        (Msg.answer "111111" (JVal.jbool true) (some "bob")) =
      (⟨some "carol", none⟩, [("111111", gEnded)], []) :=
  answer_silent_noop_when_not_inProgress _ _ 9 9 _ _ _ gEnded (by decide) (by decide)

/-- C4 (code bug): LIST_GAMES filters only on `state = lobby`, so a private
(`isPublic = false`) lobby game is included in the GAMES_LIST reply,
contradicting the handler's own comment "Only show joinable games (lobby,
public)" and the specification. -/
theorem listGames_includes_private_lobby_game :
    (serializeGame gPriv).isPublic = false ∧ gPriv.state = GState.lobby ∧
    handleMessage ⟨some "carol", none⟩ [("444444", gPriv)] 0 0 Msg.listGames =
      (⟨some "carol", none⟩, [("444444", gPriv)],
       [Output.reply (OutMsg.gamesList [serializeGame gPriv])]) := by decide

/-- C2 counterexample: START_GAME on an ended game does not fail — it
mutates the game back to `inProgress` (resetting index, answered sets and
`endedAt`) and broadcasts GAME_STARTED. -/
theorem startGame_succeeds_on_ended_game :
    gEnded.state = GState.ended ∧
    handleMessage ⟨some "alice", none⟩ [("111111", gEnded)] 50 0
        (Msg.startGame (some "111111") (some "alice")) =
      (⟨some "alice", none⟩,
       [("111111", { gEnded with
                     state := GState.inProgress
                     currentQuestionIndex := 0
                     answeredByIndex := []
                     endedAt := none })],
       [Output.broadcast "111111" (OutMsg.gameStarted "111111" (serializeGame
          { gEnded with
            state := GState.inProgress
            currentQuestionIndex := 0
            answeredByIndex := []
            endedAt := none }))]) := by decide

/-- C2 amended: START_GAME never checks the game's state. For any existing
game — in lobby, inProgress or ended — whose host is the actor and whose
question list is non-empty, it sets `state` to `inProgress`, resets
`currentQuestionIndex`, clears `answeredByIndex`, nulls `endedAt`, and
broadcasts GAME_STARTED. -/
theorem startGame_restarts_regardless_of_state
    (c : Client) (reg : Registry) (t rand : Nat) (pin u : String) (g : Game)
    (hpin : ¬pin.isEmpty) (hg : mapGet reg pin = some g) (hu : ¬u.isEmpty)
    (hhost : g.host = u) (hq : g.questions ≠ []) :
    handleMessage c reg t rand (Msg.startGame (some pin) (some u)) =
      (c, mapSet reg pin
        { g with
          state := GState.inProgress
          currentQuestionIndex := 0
          answeredByIndex := []
          endedAt := none },
       [Output.broadcast pin (OutMsg.gameStarted pin (serializeGame
          { g with
            state := GState.inProgress
            currentQuestionIndex := 0
            answeredByIndex := []
            endedAt := none }))]) := by
  have hq' : g.questions.length ≠ 0 := by simpa using hq
  simp [handleMessage, handleStartGame, jsOr, jsTruthyS, jsOrD, hpin, hg, hu, hhost, hq']

/-- Witness for the amended C2: restarting the concrete in-progress game. -/
theorem startGame_restarts_regardless_of_state_witness :
    handleMessage cAlice [("222222", gInProg2)] 7 0
        (Msg.startGame (some "222222") (some "alice")) =
      (cAlice, mapSet [("222222", gInProg2)] "222222"
        { gInProg2 with
          state := GState.inProgress
          currentQuestionIndex := 0
          answeredByIndex := []
          endedAt := none },
       [Output.broadcast "222222" (OutMsg.gameStarted "222222" (serializeGame
          { gInProg2 with
            state := GState.inProgress
            currentQuestionIndex := 0
            answeredByIndex := []
            endedAt := none }))]) :=
  startGame_restarts_regardless_of_state cAlice _ 7 0 "222222" "alice" gInProg2
    (by decide) (by decide) (by decide) (by decide) (by decide)

/-- C3 counterexample: a further END_GAME on an already-ended game (endedAt
= 5) overwrites `endedAt` with the current time (99) and broadcasts
GAME_ENDED again. -/
theorem second_endGame_rebroadcasts_and_overwrites :
    gEnded.state = GState.ended ∧ gEnded.endedAt = some 5 ∧
    handleMessage ⟨some "alice", none⟩ [("111111", gEnded)] 99 0
        (Msg.endGame "111111" (some "alice")) =
      (⟨some "alice", none⟩, [("111111", { gEnded with endedAt := some 99 })],
       [Output.broadcast "111111" (OutMsg.gameEnded "111111"
          (serializeGame { gEnded with endedAt := some 99 }))]) := by decide

/-- C3 amended: END_GAME from the host always re-runs `endGame`, whatever
the current state: `state` becomes `ended`, `endedAt` is overwritten with
the current time, every other field is unchanged, and GAME_ENDED is
broadcast (again). -/
theorem endGame_always_sets_endedAt_and_broadcasts
    (c : Client) (reg : Registry) (t rand : Nat) (pin u : String) (g : Game)
    (hg : mapGet reg pin = some g) (hu : ¬u.isEmpty) (hhost : g.host = u) :
    handleMessage c reg t rand (Msg.endGame pin (some u)) =
      (c, mapSet reg pin { g with state := GState.ended, endedAt := some t },
       [Output.broadcast pin (OutMsg.gameEnded pin (serializeGame
          { g with state := GState.ended, endedAt := some t }))]) := by
  simp [handleMessage, handleEndGame, endGameRun, jsOr, jsTruthyS, jsOrD, hg, hu, hhost]

/-- Witness for the amended C3: ending the concrete ended game again at
time 123. -/
theorem endGame_always_sets_endedAt_and_broadcasts_witness :
    handleMessage cAlice [("111111", gEnded)] 123 0 (Msg.endGame "111111" (some "alice")) =
      (cAlice, mapSet [("111111", gEnded)] "111111"
        { gEnded with state := GState.ended, endedAt := some 123 },
       [Output.broadcast "111111" (OutMsg.gameEnded "111111"
          (serializeGame { gEnded with state := GState.ended, endedAt := some 123 }))]) :=
  endGame_always_sets_endedAt_and_broadcasts cAlice _ 123 0 "111111" "alice" gEnded
    (by decide) (by decide) (by decide)

/-- C8 counterexample: `generatePin` does not consult the registry. When
the draw collides with the registered PIN 123456, CREATE_GAME stores the
new game under the same key, silently replacing the existing game. -/
theorem createGame_overwrites_on_pin_collision :
    generatePin 23456 = "123456" ∧ mapGet [("123456", gOld)] "123456" = some gOld ∧
    handleMessage ⟨some "bob", none⟩ [("123456", gOld)] 10 23456
        (Msg.createGame (some "bob") none none none) =
      (⟨some "bob", some "123456"⟩,
       [("123456", ⟨"123456", "bob", GState.lobby, "", true, 20, ["bob"], [("bob", 0)],
          [], 0, [], 10, none⟩)],
       [Output.reply (OutMsg.gameCreated (serializeGame ⟨"123456", "bob", GState.lobby, "",
          true, 20, ["bob"], [("bob", 0)], [], 0, [], 10, none⟩))]) := by decide

/-- C8 amended: `generatePin` always encodes a number in [100000, 999999]
(a 6-digit decimal string), but performs no collision check: for every
registry, CREATE_GAME from a registered client stores the freshly built
game under the drawn PIN unconditionally, overwriting any game already
registered there. -/
theorem generatePin_range_and_create_stores_unconditionally
    (c : Client) (reg : Registry) (t rand : Nat) (uname theme : Option String)
    (isPub : Option Bool) (maxP : Option Nat) (hreg : jsTruthyS c.username = true) :
    100000 ≤ generatePinNum rand ∧ generatePinNum rand ≤ 999999 ∧
    mapGet (handleMessage c reg t rand (Msg.createGame uname theme isPub maxP)).2.1
        (generatePin rand) =
      some ⟨generatePin rand, (jsOr uname c.username).getD "", GState.lobby, theme.getD "",
        isPub.getD true, numOr (maxP.getD 20) 20, [(jsOr uname c.username).getD ""],
        [((jsOr uname c.username).getD "", 0)], [], 0, [], t, none⟩ := by
  refine ⟨Nat.le_add_right _ _, ?_, ?_⟩
  · have h : rand % 900000 < 900000 := Nat.mod_lt _ (by norm_num)
    unfold generatePinNum
    omega
  · simp [handleMessage, handleCreateGame, hreg, mapGet_mapSet, generatePin]

/-- Witness for the amended C8: instantiated at a registry already holding
a game under the colliding PIN 123456. -/
theorem generatePin_range_and_create_stores_unconditionally_witness :
    100000 ≤ generatePinNum 23456 ∧ generatePinNum 23456 ≤ 999999 ∧
    mapGet (handleMessage ⟨some "bob", none⟩ [("123456", gOld)] 10 23456
        (Msg.createGame (some "bob") none none none)).2.1 (generatePin 23456) =
      some ⟨generatePin 23456, (jsOr (some "bob") (some "bob")).getD "", GState.lobby,
        (none : Option String).getD "", (none : Option Bool).getD true,
        numOr ((none : Option Nat).getD 20) 20, [(jsOr (some "bob") (some "bob")).getD ""],
        [((jsOr (some "bob") (some "bob")).getD "", 0)], [], 0, [], 10, none⟩ :=
  generatePin_range_and_create_stores_unconditionally ⟨some "bob", none⟩ _ 10 23456 _ _ _ _
    (by decide)

/-- C1 counterexample: in a legal message trace the host re-sends
START_GAME on the running game, which clears `answeredByIndex`; bob then
scores 100 twice for the same question index 0 while the game is
`inProgress` throughout — two increments for the pair (bob, 0). -/
theorem restart_allows_second_increment_same_index :
    ((mapGet trA3.2.1 "100000").map (fun g => (g.currentQuestionIndex, g.state)) =
      some (0, GState.inProgress)) ∧
    ((mapGet trA4.2.1 "100000").map (fun g => mapGet g.scores "bob") = some (some 100)) ∧
    ((mapGet trA5.2.1 "100000").map (fun g => (g.currentQuestionIndex, g.state)) =
      some (0, GState.inProgress)) ∧
    ((mapGet trA6.2.1 "100000").map (fun g => mapGet g.scores "bob") = some (some 200)) := by
  decide

/-- C5 counterexample: after a trace ending with an ANSWER from a user who
is not a player, the game holds 2 players though `maxPlayers` is 1 — the
ANSWER handler adds unknown users with no capacity check. -/
theorem answer_grows_players_past_maxPlayers :
    (mapGet trB4.2.1 "100000").map (fun g => (g.players.length, g.maxPlayers)) =
      some (2, 1) := by decide

/-- C6 counterexample: after bob answers and then exits the running game,
his name is still recorded in `answeredByIndex[0]` although he is no longer
in `players` — EXIT_GAME does not clean the answered sets. -/
theorem exitGame_leaves_user_in_answeredByIndex :
    (mapGet trC6.2.1 "100000").map
        (fun g => (decide ("bob" ∈ (mapGet g.answeredByIndex 0).getD []),
                   decide ("bob" ∈ g.players))) = some (true, false) := by decide

/-- C9 counterexample: with a connected session and a valid gameId, the
`/api/joinGame` route replies 200 with body `ok: true` and NO game object,
immediately after forwarding JOIN_GAME — it does not wait for any
JOINED_GAME frame (the route never reads inbound frames). -/
theorem joinGameRoute_returns_without_game :
    joinGameRoute [("alice", gcAlice)] ⟨some "alice", none, none, some "123456"⟩ =
      Except.ok (⟨200, some true, none, none⟩, [TcpSend.joinGameMsg "123456" "alice"]) := by
  rfl

/-- C7 counterexample: EXIT_GAME on a game that is `inProgress` (state ≠
lobby) still deletes the exiting user's score entry — the deletion is
unconditional, not restricted to the lobby state. -/
theorem exitGame_deletes_score_when_inProgress :
    gInProg7.state = GState.inProgress ∧ mapGet gInProg7.scores "bob" = some 100 ∧
    handleMessage ⟨some "bob", some "333333"⟩ [("333333", gInProg7)] 0 0
        (Msg.exitGame (some "333333")) =
      (⟨some "bob", none⟩,
       [("333333", { gInProg7 with players := ["alice"], scores := [("alice", 0)] })],
       [Output.broadcast "333333" (OutMsg.playerLeft "333333" (serializeGame
          { gInProg7 with players := ["alice"], scores := [("alice", 0)] }))]) := by decide

/-- C7 amended: EXIT_GAME removes the exiting user from `players` AND from
`scores` in every state — the handler never tests the state before
deleting the score entry. -/
theorem exitGame_always_removes_player_and_score
    (c : Client) (reg : Registry) (t rand : Nat) (pin u : String) (g : Game)
    (hpin : ¬pin.isEmpty) (hcu : c.username = some u) (hu : ¬u.isEmpty)
    (hg : mapGet reg pin = some g) :
    ∀ g', mapGet (handleMessage c reg t rand (Msg.exitGame (some pin))).2.1 pin = some g' →
      u ∉ g'.players ∧ mapGet g'.scores u = none := by
  intro g' h
  simp only [handleMessage, handleExitGame, jsOr, jsTruthyS, hpin, hcu, hg,
    Bool.not_eq_true', if_true, if_pos] at h
  rw [if_neg (by simpa using hpin), if_neg (by simpa using hu)] at h
  split at h
  · split at h
    · simp [mapGet_mapDelete] at h
    · simp only [mapGet_mapSet, if_pos, Option.some.injEq] at h
      subst h
      exact ⟨not_mem_setDelete_self _ _, by simp [mapGet_mapDelete]⟩
  · split at h
    · simpa [mapGet_mapDelete] using h
    · simp only [mapGet_mapSet, if_pos, Option.some.injEq] at h
      subst h
      exact ⟨not_mem_setDelete_self _ _, by simp [mapGet_mapDelete]⟩

/-- Witness for the amended C7, at the concrete in-progress game. -/
theorem exitGame_always_removes_player_and_score_witness :
    "bob" ∉ ({ gInProg7 with players := ["alice"], scores := [("alice", 0)] } : Game).players ∧
    mapGet ({ gInProg7 with players := ["alice"], scores := [("alice", 0)] } : Game).scores
      "bob" = none :=
  exitGame_always_removes_player_and_score ⟨some "bob", some "333333"⟩
    [("333333", gInProg7)] 0 0 "333333" "bob" gInProg7 (by decide) rfl (by decide)
    (by decide) _ (by decide)

/-- C9 amended: with a resolvable username, an existing connected session
and a non-empty gameId, the `/api/joinGame` route forwards exactly one
JOIN_GAME frame and immediately replies 200 with `ok: true` and no game
object — it performs no wait for a JOINED_GAME frame (the route has no
access to inbound frames at all). -/
theorem joinGameRoute_fire_and_forget
    (clients : List (String × GameClientS)) (r : BridgeReq) (u : String)
    (gc : GameClientS) (gid : String)
    (hres : resolveUsername r = some u) (hc : mapGet clients u = some gc)
    (hconn : gc.connected = true) (hgid : r.bodyGameId = some gid)
    (hne : ¬gid.isEmpty) (hu : ¬u.isEmpty) :
    joinGameRoute clients r =
      Except.ok (⟨200, some true, none, none⟩, [TcpSend.joinGameMsg gid u]) := by
  simp [joinGameRoute, hres, hc, hgid, hne, gcJoinGame, hconn, jsOrD, hu]

/-- Witness for the amended C9: the concrete connected session. -/
theorem joinGameRoute_fire_and_forget_witness :
    joinGameRoute [("alice", gcAlice)] ⟨none, some "alice", none, some "654321"⟩ =
      Except.ok (⟨200, some true, none, none⟩, [TcpSend.joinGameMsg "654321" "alice"]) :=
  joinGameRoute_fire_and_forget _ _ "alice" gcAlice "654321" (by rfl) (by decide) (by decide)
    (by rfl) (by decide) (by decide)

/-! Lemmas about invariant preservation and the ANSWER result game. -/

theorem answeredSub_ensurePlayer (g : Game) (u : String) (h : AnsweredSubPlayers g) :
    AnsweredSubPlayers (ensurePlayer g u) := by
  intro e he u' hu'
  rw [ensurePlayer_answeredByIndex] at he
  exact ensurePlayer_players_sub g u u' (h e he u' hu')

theorem answeredSub_ensureAnswerSet (g : Game) (idx : Nat) (h : AnsweredSubPlayers g) :
    AnsweredSubPlayers (ensureAnswerSet g idx) := by
  intro e he u' hu'
  rw [ensureAnswerSet_players]
  by_cases hc : (mapGet g.answeredByIndex idx).isSome
  · rw [ensureAnswerSet_eq_of_isSome _ _ hc] at he
    exact h e he u' hu'
  · rw [show ensureAnswerSet g idx =
        { g with answeredByIndex := mapSet g.answeredByIndex idx [] } from by
      unfold ensureAnswerSet; rw [if_neg hc]] at he
    simp only at he
    rcases mem_mapSet_entries _ _ _ _ he with ⟨h1, h2⟩ | hold
    · rw [h2] at hu'
      exact absurd hu' (List.not_mem_nil u')
    · exact h e hold u' hu'

theorem answeredSub_addAnswer (g : Game) (u : String) (idx : Nat)
    (h : AnsweredSubPlayers g) (hu : u ∈ g.players) :
    AnsweredSubPlayers
      { g with
        answeredByIndex :=
          mapSet g.answeredByIndex idx
            (setAdd ((mapGet g.answeredByIndex idx).getD []) u) } := by
  intro e he u' hu'
  simp only at he ⊢
  rcases mem_mapSet_entries _ _ _ _ he with ⟨h1, h2⟩ | hold
  · rw [h2] at hu'
    rcases (mem_setAdd _ _ _).mp hu' with hin | rfl
    · rcases hm : mapGet g.answeredByIndex idx with _ | s
      · rw [hm] at hin
        exact absurd hin (List.not_mem_nil u')
      · rw [hm] at hin
        exact h (idx, s) (mapGet_mem _ _ _ hm) u' hin
    · exact hu
  · exact h e hold u' hu'

theorem answeredSub_scoreAnswer (g : Game) (u : String) (b : Bool)
    (h : AnsweredSubPlayers g) : AnsweredSubPlayers (scoreAnswer g u b) := by
  intro e he u' hu'
  rw [scoreAnswer_answeredByIndex] at he
  rw [scoreAnswer_players]
  exact h e he u' hu'

@[simp]
theorem answerResultGame_state (g : Game) (u : String) (b : Bool) :
    (answerResultGame g u b).state = g.state := by
  unfold answerResultGame
  simp

@[simp]
theorem answerResultGame_currentQuestionIndex (g : Game) (u : String) (b : Bool) :
    (answerResultGame g u b).currentQuestionIndex = g.currentQuestionIndex := by
  unfold answerResultGame
  simp

theorem answerResultGame_mem_players (g : Game) (u : String) (b : Bool) :
    u ∈ (answerResultGame g u b).players := by
  unfold answerResultGame
  simp [ensurePlayer_mem_players]

theorem answerResultGame_scores_get (g : Game) (u : String) (b : Bool) :
    mapGet (answerResultGame g u b).scores u =
      some ((mapGet g.scores u).getD 0 + if b then 100 else 0) := by
  unfold answerResultGame
  simp [scoreAnswer_scores_get, ensurePlayer_scores_getD]

theorem answerResultGame_mem_answered (g : Game) (u : String) (b : Bool) :
    u ∈ (mapGet (answerResultGame g u b).answeredByIndex
      (answerResultGame g u b).currentQuestionIndex).getD [] := by
  unfold answerResultGame
  simp [mapGet_mapSet, mem_setAdd_self]

theorem handleAnswer_not_answered (c : Client) (reg : Registry) (pin u : String)
    (corr : JVal) (g : Game)
    (hg : mapGet reg pin = some g) (hs : g.state = GState.inProgress) (hu : ¬u.isEmpty)
    (hans : u ∉ (mapGet g.answeredByIndex g.currentQuestionIndex).getD []) :
    handleAnswer c reg pin corr (some u) =
      (c, mapSet reg pin (answerResultGame g u (coerceCorrect corr)),
       [Output.broadcast pin (OutMsg.scoreUpdate pin
          (serializeGame (answerResultGame g u (coerceCorrect corr))) u
          (coerceCorrect corr) false)]) := by
  have hans' : u ∉ (mapGet (ensureAnswerSet (ensurePlayer g u)
      g.currentQuestionIndex).answeredByIndex g.currentQuestionIndex).getD [] := by
    rw [ensureAnswerSet_getD_self, ensurePlayer_answeredByIndex]
    exact hans
  simp [handleAnswer, answerResultGame, hg, hs, jsOr, jsTruthyS, hu, hans']

theorem handleAnswer_duplicate (c : Client) (reg : Registry) (pin u : String)
    (corr : JVal) (g : Game)
    (hg : mapGet reg pin = some g) (hs : g.state = GState.inProgress) (hu : ¬u.isEmpty)
    (hmem : u ∈ g.players)
    (hansd : u ∈ (mapGet g.answeredByIndex g.currentQuestionIndex).getD []) :
    handleAnswer c reg pin corr (some u) =
      (c, reg, [Output.broadcast pin
        (OutMsg.scoreUpdate pin (serializeGame g) u false true)]) := by
  have hsome : (mapGet g.answeredByIndex g.currentQuestionIndex).isSome := by
    rcases hm : mapGet g.answeredByIndex g.currentQuestionIndex with _ | s
    · rw [hm] at hansd
      exact absurd hansd (List.not_mem_nil u)
    · rfl
  have hep : ensurePlayer g u = g := ensurePlayer_eq_of_mem g u hmem
  have hea : ensureAnswerSet g g.currentQuestionIndex = g :=
    ensureAnswerSet_eq_of_isSome _ _ hsome
  have hself : mapSet reg pin g = reg := mapSet_eq_self _ _ _ hg
  simp only [handleAnswer, hg, hs, jsOr, jsTruthyS, hu, Bool.not_eq_true']
  simp [hu, hep, hea, hansd, hself]

/-- C5 amended: JOIN_GAME does respect the capacity bound — if every
registered game satisfies `players.length ≤ maxPlayers` before a JOIN_GAME
message, every registered game still does afterwards (the handler rejects a
join at capacity with "Game is full"); it is only the ANSWER handler that
can exceed the bound. -/
theorem joinGame_respects_maxPlayers
    (c : Client) (reg : Registry) (t rand : Nat) (pin : String) (uname : Option String)
    (hinv : ∀ e ∈ reg, (e : String × Game).2.players.length ≤ e.2.maxPlayers) :
    ∀ e ∈ (handleMessage c reg t rand (Msg.joinGame pin uname)).2.1,
      (e : String × Game).2.players.length ≤ e.2.maxPlayers := by
  intro e he
  simp only [handleMessage, handleJoinGame] at he
  split at he
  · exact hinv e (by simpa using he)
  · split at he
    · exact hinv e (by simpa using he)
    · split at he
      · exact hinv e (by simpa using he)
      · split at he
        · exact hinv e (by simpa using he)
        · split at he
          · exact hinv e (by simpa using he)
          · rename_i g hg u hu hne hcap
            rcases mem_mapSet_entries _ _ _ _ (by simpa using he) with ⟨h1, h2⟩ | hold
            · rw [h2]
              exact setAdd_length_of_lt _ _ _ (Nat.lt_of_not_le hcap)
            · exact hinv e hold

/-- Witness for the amended C5: bob joins the concrete two-seat lobby game
and the capacity bound still holds for the resulting game. -/
theorem joinGame_respects_maxPlayers_witness :
    ({ gRoom with
       players := ["alice", "bob"]
       scores := [("alice", 0), ("bob", 0)] } : Game).players.length ≤
      ({ gRoom with
         players := ["alice", "bob"]
         scores := [("alice", 0), ("bob", 0)] } : Game).maxPlayers :=
  joinGame_respects_maxPlayers cAlice [("555555", gRoom)] 0 0 "555555" (some "bob")
    (by decide)
    ("555555", { gRoom with
      players := ["alice", "bob"]
      scores := [("alice", 0), ("bob", 0)] }) (by decide)

/-- C6 amended: the ANSWER handler itself preserves the invariant
`answeredByIndex[i] ⊆ players` (it adds the user to `players` before
recording the answer); the invariant is broken only by EXIT_GAME, which
removes the player but not the answered-set entries. -/
theorem answer_preserves_answered_subset
    (c : Client) (reg : Registry) (t rand : Nat) (pin : String) (corr : JVal)
    (uname : Option String)
    (hinv : ∀ e ∈ reg, AnsweredSubPlayers (e : String × Game).2) :
    ∀ e ∈ (handleMessage c reg t rand (Msg.answer pin corr uname)).2.1,
      AnsweredSubPlayers e.2 := by
  intro e he
  simp only [handleMessage, handleAnswer] at he
  split at he
  · exact hinv e (by simpa using he)
  · rename_i g hg
    split at he
    · exact hinv e (by simpa using he)
    · split at he
      · exact hinv e (by simpa using he)
      · rename_i u hju
        split at he
        · exact hinv e (by simpa using he)
        · have hgInv : AnsweredSubPlayers g := hinv (pin, g) (mapGet_mem _ _ _ hg)
          split at he
          · rcases mem_mapSet_entries _ _ _ _ (by simpa using he) with ⟨h1, h2⟩ | hold
            · rw [h2]
              exact answeredSub_ensureAnswerSet _ _ (answeredSub_ensurePlayer _ _ hgInv)
            · exact hinv e hold
          · rcases mem_mapSet_entries _ _ _ _ (show e ∈ mapSet reg pin _ from he)
              with ⟨h1, h2⟩ | hold
            · rw [h2]
              exact answeredSub_scoreAnswer _ _ _
                (answeredSub_addAnswer
                  (ensureAnswerSet (ensurePlayer g u) (ensurePlayer g u).currentQuestionIndex)
                  u ((ensurePlayer g u).currentQuestionIndex)
                  (answeredSub_ensureAnswerSet _ _ (answeredSub_ensurePlayer _ _ hgInv))
                  (by rw [ensureAnswerSet_players]; exact ensurePlayer_mem_players g u))
            · exact hinv e hold

/-- Witness for the amended C6: dave answers the concrete game and the
answered sets of the resulting game are still contained in its players. -/
theorem answer_preserves_answered_subset_witness :
    AnsweredSubPlayers ({ gW6 with
      players := ["alice", "dave"]
      scores := [("alice", 0), ("dave", 100)]
      answeredByIndex := [(0, ["alice", "dave"])] } : Game) :=
  answer_preserves_answered_subset cAlice [("777777", gW6)] 0 0 "777777"
    (JVal.jbool true) (some "dave") (by decide)
    ("777777", { gW6 with
      players := ["alice", "dave"]
      scores := [("alice", 0), ("dave", 100)]
      answeredByIndex := [(0, ["alice", "dave"])] }) (by decide)

/-- C1 amended: while the game stays on the same `answeredByIndex` record
(no intervening START_GAME clearing it), a user is scored at most once per
question index: the first ANSWER adds exactly 100 when `correct` coerces to
true (0 otherwise) and records the user; an immediately following second
ANSWER by the same user leaves the client, the registry and every game
field unchanged and broadcasts SCORE_UPDATE with `duplicate: true`. (The
unrestricted per-trace claim fails because START_GAME on a running game
clears `answeredByIndex`; see the counterexample.) -/
theorem answer_increments_once_and_duplicate_noop
    (c : Client) (reg : Registry) (t₁ r₁ t₂ r₂ : Nat) (pin u : String) (g : Game)
    (corr₁ corr₂ : JVal)
    (hg : mapGet reg pin = some g)
    (hs : g.state = GState.inProgress)
    (hu : ¬u.isEmpty)
    (hans : u ∉ (mapGet g.answeredByIndex g.currentQuestionIndex).getD []) :
    ∃ g₁,
      handleMessage c reg t₁ r₁ (Msg.answer pin corr₁ (some u)) =
        (c, mapSet reg pin g₁,
         [Output.broadcast pin (OutMsg.scoreUpdate pin (serializeGame g₁) u
            (coerceCorrect corr₁) false)]) ∧
      mapGet g₁.scores u =
        some ((mapGet g.scores u).getD 0 + if coerceCorrect corr₁ then 100 else 0) ∧
      handleMessage c (mapSet reg pin g₁) t₂ r₂ (Msg.answer pin corr₂ (some u)) =
        (c, mapSet reg pin g₁,
         [Output.broadcast pin (OutMsg.scoreUpdate pin (serializeGame g₁) u false true)]) := by
  refine ⟨answerResultGame g u (coerceCorrect corr₁), ?_, ?_, ?_⟩
  · simpa [handleMessage] using handleAnswer_not_answered c reg pin u corr₁ g hg hs hu hans
  · exact answerResultGame_scores_get g u (coerceCorrect corr₁)
  · have hg1 : mapGet (mapSet reg pin (answerResultGame g u (coerceCorrect corr₁))) pin =
        some (answerResultGame g u (coerceCorrect corr₁)) := by
      rw [mapGet_mapSet, if_pos rfl]
    have hs1 : (answerResultGame g u (coerceCorrect corr₁)).state = GState.inProgress := by
      rw [answerResultGame_state]; exact hs
    simpa [handleMessage] using handleAnswer_duplicate c
      (mapSet reg pin (answerResultGame g u (coerceCorrect corr₁))) pin u corr₂ _
      hg1 hs1 hu (answerResultGame_mem_players g u _) (answerResultGame_mem_answered g u _)

/-- Witness for the amended C1: bob answers the concrete game once (scored
100) and a second ANSWER is a duplicate no-op. -/
theorem answer_increments_once_and_duplicate_noop_witness :
    ∃ g₁,
      handleMessage cAlice [("666666", gW1)] 1 0
          (Msg.answer "666666" (JVal.jbool true) (some "bob")) =
        (cAlice, mapSet [("666666", gW1)] "666666" g₁,
         [Output.broadcast "666666" (OutMsg.scoreUpdate "666666" (serializeGame g₁) "bob"
            (coerceCorrect (JVal.jbool true)) false)]) ∧
      mapGet g₁.scores "bob" =
        some ((mapGet gW1.scores "bob").getD 0 +
          if coerceCorrect (JVal.jbool true) then 100 else 0) ∧
      handleMessage cAlice (mapSet [("666666", gW1)] "666666" g₁) 2 0
          (Msg.answer "666666" (JVal.jbool false) (some "bob")) =
        (cAlice, mapSet [("666666", gW1)] "666666" g₁,
         [Output.broadcast "666666"
            (OutMsg.scoreUpdate "666666" (serializeGame g₁) "bob" false true)]) :=
  answer_increments_once_and_duplicate_noop cAlice [("666666", gW1)] 1 0 2 0 "666666" "bob"
    gW1 (JVal.jbool true) (JVal.jbool false) (by decide) (by decide) (by decide) (by decide)

end NotKahoot
